import Mathlib

/-!
Verification of the chat orchestration core of the `symmetrical-happiness`
repository (Django chat application under `chat_django/`).

The development shallowly embeds:
  * the RNA database tool adapter (`chat/tools/rna_database/mcp.py`:
    `_handle_search`, `_handle_get_sequence`),
  * the directive parsers and the planning loop of
    `chat/chatbot.py` (`ChatProcessor.process_message`, the live
    orchestrator used by `chat/views.py`),
  * the caching tool wrapper (`chat/tool_wrappers.py`: `CachedTool`
    over the in-memory cache of `chat/cache.py`).

External collaborators (LLM completion calls, the SQLite engine, the
genome-browser backend, Django ORM persistence) are modelled at their
interface boundary: the planning agent and the response streamer are
oracles supplied in the loop configuration, SQLite query execution is
given its documented semantics over a typed table of rows, and the
assistant-message persistence is recorded as a list of message bodies.
-/

set_option maxRecDepth 4000

/-! ## String helpers mirroring the Python primitives used by the source

All character-level operations are implemented by structural recursion
over the character list of the string, so that every definition in this
development evaluates inside the kernel. -/

/-- ASCII lowercasing of one character. -/
def lowerChar (c : Char) : Char :=
  if decide (65 ≤ c.toNat) && decide (c.toNat ≤ 90) then Char.ofNat (c.toNat + 32)
  else c

/-- Python `s.lower()` as used by the source (ASCII identifiers and
species names). -/
def pyLower (s : String) : String :=
  String.mk (s.data.map lowerChar)

/-- Whether the first list is a prefix of the second. -/
def isPrefixCh : List Char → List Char → Bool
  | [], _ => true
  | _ :: _, [] => false
  | a :: as, b :: bs => a == b && isPrefixCh as bs

/-- Occurrence of `needle` anywhere in `haystack`. -/
def containsCh : List Char → List Char → Bool
  | [], needle => needle.isEmpty
  | c :: rest, needle => isPrefixCh needle (c :: rest) || containsCh rest needle

/-- Python substring membership `needle in haystack`. -/
def strContains (haystack needle : String) : Bool :=
  containsCh haystack.data needle.data

/-- Python `s.startswith(p)`. -/
def pyStartsWith (s p : String) : Bool :=
  isPrefixCh p.data s.data

/-- Python `value.strip('"')`: remove all leading and trailing `"`
characters. -/
def stripQuotes (s : String) : String :=
  let cs := s.data.dropWhile (fun c => c == '"')
  String.mk ((cs.reverse.dropWhile (fun c => c == '"')).reverse)

/-- Split at the first occurrence of a one-character separator, keeping
the remainder (with any later separators) intact: Python
`part.split(sep, 1)` guarded by `sep in part`. -/
def splitOnceCh (sep : Char) : List Char → Option (List Char × List Char)
  | [] => none
  | c :: rest =>
    if c == sep then some ([], rest)
    else match splitOnceCh sep rest with
      | none => none
      | some kv => some (c :: kv.1, kv.2)

/-- String version of `splitOnceCh`. -/
def splitOnce (s : String) (sep : Char) : Option (String × String) :=
  (splitOnceCh sep s.data).map (fun kv => (String.mk kv.1, String.mk kv.2))

/-- Split at every occurrence of a one-character separator (Python
`s.split(sep)` for a one-character separator, empty pieces kept). -/
def splitAllCh (sep : Char) : List Char → List (List Char)
  | [] => [[]]
  | c :: rest =>
    if c == sep then [] :: splitAllCh sep rest
    else match splitAllCh sep rest with
      | [] => [[c]]
      | h :: t => (c :: h) :: t

/-- Split on runs of whitespace, discarding empty pieces; `acc` is the
reversed current piece. -/
def splitWsCh : List Char → List Char → List (List Char)
  | [], acc => if acc.isEmpty then [] else [acc.reverse]
  | c :: rest, acc =>
    if c.isWhitespace then
      if acc.isEmpty then splitWsCh rest []
      else acc.reverse :: splitWsCh rest []
    else splitWsCh rest (c :: acc)

/-- Python `str.split()` with no arguments. -/
def pySplitWs (s : String) : List String :=
  (splitWsCh s.data []).map String.mk

/-- Strip leading and trailing whitespace. -/
def trimCh (l : List Char) : List Char :=
  ((l.dropWhile Char.isWhitespace).reverse.dropWhile Char.isWhitespace).reverse

/-- A non-empty all-digit character list as a number. -/
def digitsToNat (l : List Char) : Option Nat :=
  if !l.isEmpty && l.all Char.isDigit then
    some (l.foldl (fun n c => n * 10 + (c.toNat - 48)) 0)
  else none

/-- Python `int(s)` as used on directive values: an optionally signed
decimal integer after trimming whitespace; `none` models the `ValueError`
raised on any other input. -/
def pyInt (s : String) : Option Int :=
  match trimCh s.data with
  | '-' :: rest => (digitsToNat rest).map (fun n => -(n : Int))
  | '+' :: rest => (digitsToNat rest).map (fun n => (n : Int))
  | l => (digitsToNat l).map (fun n => (n : Int))

/-- Python `float(s)` on the decimal forms produced by the planner:
optional minus sign, digits, optional fraction part; `none` models the
`ValueError` raised on non-numeric input. -/
def pyFloat (s : String) : Option ℚ :=
  let t := trimCh s.data
  let su : Bool × List Char := match t with
    | '-' :: rest => (true, rest)
    | l => (false, l)
  let v? : Option ℚ :=
    match splitAllCh '.' su.2 with
    | [a] => (digitsToNat a).map (fun n => (n : ℚ))
    | [a, b] =>
      match digitsToNat a, digitsToNat b with
      | some x, some y => some ((x : ℚ) + (y : ℚ) / (10 : ℚ) ^ b.length)
      | _, _ => none
    | _ => none
  v?.map (fun v => if su.1 then -v else v)

/-- Join a list of strings with a separator. -/
def joinWith (sep : String) : List String → String
  | [] => ""
  | [x] => x
  | x :: xs => x ++ sep ++ joinWith sep xs

/-- SQLite `LIKE '%t%'` on a text column (default ASCII case-insensitive
collation). -/
def likeContains (haystack needle : String) : Bool :=
  strContains (pyLower haystack) (pyLower needle)

/-! ## RNA database adapter (`chat/tools/rna_database/mcp.py`)

A database row as stored in the per-species SQLite tables.  Column text
decoding performed while copying rows into the Django `Sequence` model
(`float` on the score columns, `json.loads` on `sequences`/`overview`) is
modelled by typing the fields directly; the two raw JSON text columns are
kept as strings. -/

structure Row where
  gene_symbol : String
  anticodon : String
  isotype : String
  general_score : ℚ
  isotype_score : ℚ
  model_agreement : Bool
  features : String
  locus : String
  sequences : String
  overview : String
deriving DecidableEq

/-- The parameter mapping accepted by `_handle_search` (each field models
presence of the corresponding key in the `params` dict). -/
structure SearchParams where
  search_term : Option String := none
  isotype : Option String := none
  anticodon : Option String := none
  species : Option String := none
  min_general_score : Option ℚ := none
  max_general_score : Option ℚ := none
  min_isotype_score : Option ℚ := none
  max_isotype_score : Option ℚ := none
  json_field : Option String := none
  json_value : Option String := none
  sort_by : Option String := none
  order : Option String := none
  limit : Option Int := none
  sample : Option String := none
deriving DecidableEq

/-- Parameters of `_handle_get_sequence`. -/
structure GetSeqParams where
  gene_symbol : Option String := none
  species : Option String := none
deriving DecidableEq

/-- Genome-browser payload of a successful CRAP tool call
(`result.data` keys read by the orchestrator). -/
structure CrapData where
  sequence : String
  annotated_sequence : String
  features : List String
  tracks : List String
  browser_link : String
  image : Option String := none
deriving DecidableEq

/-- The `data` dictionary of an `MCPResponse`; each field models presence
of the corresponding key (`sequences` for search results, `sequence` for
single-row lookups, the genome-browser keys collectively as `crap`). -/
structure DataDict where
  sequences : Option (List Row) := none
  sequence : Option Row := none
  crap : Option CrapData := none
deriving DecidableEq

/-- The `error` dictionary of an `MCPResponse`. -/
structure ErrInfo where
  code : String
  message : String
deriving DecidableEq

/-- `MCPResponse` from `chat/tools/rna_database/mcp.py`. -/
structure MCPResponse where
  status : String
  data : Option DataDict := none
  error : Option ErrInfo := none
deriving DecidableEq

/-- `self.valid_species` of `RNADatabaseMCP`. -/
def validSpeciesL : List String := ["human", "yeast", "mouse"]

/-- Species selection shared by `_handle_search` and
`_handle_get_sequence`: `params.get('species', 'human').lower()`, replaced
by `'human'` when not one of the valid species. -/
def effectiveSpecies (sp : Option String) : String :=
  let s := pyLower (sp.getD "human")
  if validSpeciesL.contains s then s else "human"

/-- The `WHERE` clause built by `_handle_search`, as a predicate on rows:
one conjunct per present parameter, in source order. -/
def rowMatches (p : SearchParams) (r : Row) : Bool :=
  (match p.search_term with
   | none => true
   | some t => likeContains r.isotype t || likeContains r.gene_symbol t) &&
  (match p.isotype with | none => true | some v => r.isotype == v) &&
  (match p.anticodon with | none => true | some v => r.anticodon == v) &&
  (match p.min_general_score with
   | none => true | some q => decide (q ≤ r.general_score)) &&
  (match p.max_general_score with
   | none => true | some q => decide (r.general_score ≤ q)) &&
  (match p.min_isotype_score with
   | none => true | some q => decide (q ≤ r.isotype_score)) &&
  (match p.max_isotype_score with
   | none => true | some q => decide (r.isotype_score ≤ q))

/-- Table columns of the per-species SQLite tables; an `ORDER BY` on any
other name is an SQL error. -/
def knownColumns : List String :=
  ["GtRNAdb_Gene_Symbol", "Anticodon", "Isotype_from_Anticodon",
   "General_tRNA_Model_Score", "Isotype_Model_Score",
   "Anticodon_and_Isotype_Model_Agreement", "Features", "Locus",
   "sequences", "overview"]

/-- Rendering of a column for `ORDER BY` comparison (the score columns are
stored as TEXT in the SQLite schema, so ordering is textual). -/
def colKey (c : String) (r : Row) : String :=
  if c == "GtRNAdb_Gene_Symbol" then r.gene_symbol
  else if c == "Anticodon" then r.anticodon
  else if c == "Isotype_from_Anticodon" then r.isotype
  else if c == "General_tRNA_Model_Score" then toString r.general_score
  else if c == "Isotype_Model_Score" then toString r.isotype_score
  else if c == "Features" then r.features
  else if c == "Locus" then r.locus
  else if c == "sequences" then r.sequences
  else r.overview

/-- Boolean string comparison used to model SQLite text ordering. -/
def strLtB : List Char → List Char → Bool
  | [], [] => false
  | [], _ :: _ => true
  | _ :: _, [] => false
  | x :: xs, y :: ys =>
    if x < y then true else if y < x then false else strLtB xs ys

/-- Insertion of one row into a sorted list (model of the engine's sort). -/
def insertSorted (le : Row → Row → Bool) (r : Row) : List Row → List Row
  | [] => [r]
  | x :: xs => if le r x then r :: x :: xs else x :: insertSorted le r xs

/-- Sort used to model `ORDER BY`. -/
def sortByKey (le : Row → Row → Bool) (l : List Row) : List Row :=
  l.foldr (insertSorted le) []

/-- The `ORDER BY` clauses of `_handle_search`: sort by the requested
column (descending when `order` is `desc`), and `ORDER BY RANDOM()` for
`sample:"random"` modelled as the identity permutation (row count and row
membership are unaffected by the engine's choice of permutation). -/
def sortRows (p : SearchParams) (rows : List Row) : List Row :=
  match p.sort_by with
  | some c =>
    if pyLower (p.order.getD "") == "desc" then
      sortByKey (fun a b => !(strLtB (colKey c a).toList (colKey c b).toList)) rows
    else
      sortByKey (fun a b => !(strLtB (colKey c b).toList (colKey c a).toList)) rows
  | none => rows

/-- The requests on which the SQL text built by `_handle_search` fails to
execute, producing the `SEARCH_ERROR` response via the handler's
`except` clause:
  * the `json_field`/`json_value` branch appends
    `json_extract(overview, '%Known Modifications (Modomics)%) = ?`,
    whose string literal is never closed (unterminated quote);
  * `sort_by` together with `sample:"random"` appends two `ORDER BY`
    clauses;
  * an `ORDER BY` on an unknown column name. -/
def searchBroken (p : SearchParams) : Bool :=
  (p.json_field == some "Known Modifications (Modomics)" && p.json_value.isSome)
  || (p.sort_by.isSome && (pyLower (p.sample.getD "") == "random"))
  || (match p.sort_by with
      | some c => !(knownColumns.contains c)
      | none => false)

/-- The `LIMIT` clause: the requested limit is passed verbatim
(`LIMIT ?` with `int(params['limit'])`; SQLite treats a negative limit as
unlimited); `LIMIT 10` only when no limit was requested. -/
def applyLimit (lim : Option Int) (rows : List Row) : List Row :=
  match lim with
  | some n => if n < 0 then rows else rows.take n.toNat
  | none => rows.take 10

/-- `RNADatabaseMCP._handle_search`: select the species table, filter,
sort, limit, and return the rows as a success payload (each returned row
is also persisted once as a `Sequence` record; the persisted records
coincide with the returned list).  A database is a map from species table
name to its rows. -/
def handle_search (db : String → List Row) (p : SearchParams) : MCPResponse :=
  if searchBroken p then
    { status := "error"
      error := some { code := "SEARCH_ERROR", message := "SQL error" } }
  else
    let rows := (db (effectiveSpecies p.species)).filter (rowMatches p)
    let rows := sortRows p rows
    let rows := applyLimit p.limit rows
    { status := "success", data := some { sequences := some rows } }

/-- `RNADatabaseMCP._handle_get_sequence`: `gene_symbol` is required
(missing or empty is falsy in `if not gene_symbol`), the species defaults
to human exactly as in search, and the first matching row is returned. -/
def handle_get_sequence (db : String → List Row) (p : GetSeqParams) : MCPResponse :=
  if (p.gene_symbol.getD "") == "" then
    { status := "error"
      error := some { code := "MISSING_PARAM"
                      message := "gene_symbol parameter is required" } }
  else
    let g := p.gene_symbol.getD ""
    match (db (effectiveSpecies p.species)).find? (fun r => r.gene_symbol == g) with
    | none =>
      { status := "error"
        error := some { code := "NOT_FOUND"
                        message := "No sequence found with gene symbol" } }
    | some r =>
      { status := "success", data := some { sequence := some r } }

/-- Number of records in a search response. -/
def resultCount (r : MCPResponse) : Nat :=
  match r.data with
  | some d => match d.sequences with
    | some l => l.length
    | none => 0
  | none => 0

/-- The machine-readable code of a failure response, if any. -/
def errCode (r : MCPResponse) : Option String :=
  r.error.map (fun e => e.code)

/-- `species` key absent, or naming something outside the valid species
set (after lowercasing). -/
def speciesAbsentOrInvalid (sp : Option String) : Bool :=
  match sp with
  | none => true
  | some s => !(validSpeciesL.contains (pyLower s))

/-! ## Directive parsing in the orchestrator (`chat/chatbot.py`,
`ChatProcessor.process_message`, lines 366-408 and 491-500) -/

/-- The keys recognised by the `GET_TRNA` branch of the orchestrator's
directive parser. -/
def recognizedKeys : List String :=
  ["Isotype_from_Anticodon", "Anticodon", "species", "json_field",
   "json_value", "General_tRNA_Model_Score_min",
   "General_tRNA_Model_Score_max", "Isotype_Model_Score_min",
   "Isotype_Model_Score_max", "sort_by", "order", "limit", "sample"]

/-- One iteration of the `GET_TRNA` parameter-parsing loop: a part without
`':'` is skipped, recognised keys update the mapping (numeric keys through
`float(value)` / `int(value)`, whose `ValueError` is modelled by
`.error ()` and propagates out of the fold), and unknown keys fall through
the `elif` chain leaving the mapping unchanged. -/
def parsePart (p : SearchParams) (part : String) : Except Unit SearchParams :=
  match splitOnce part ':' with
  | none => .ok p
  | some (key, raw) =>
    let value := stripQuotes raw
    if key == "Isotype_from_Anticodon" then .ok { p with isotype := some value }
    else if key == "Anticodon" then .ok { p with anticodon := some value }
    else if key == "species" then .ok { p with species := some value }
    else if key == "json_field" then .ok { p with json_field := some value }
    else if key == "json_value" then .ok { p with json_value := some value }
    else if key == "General_tRNA_Model_Score_min" then
      match pyFloat value with
      | some q => .ok { p with min_general_score := some q }
      | none => .error ()
    else if key == "General_tRNA_Model_Score_max" then
      match pyFloat value with
      | some q => .ok { p with max_general_score := some q }
      | none => .error ()
    else if key == "Isotype_Model_Score_min" then
      match pyFloat value with
      | some q => .ok { p with min_isotype_score := some q }
      | none => .error ()
    else if key == "Isotype_Model_Score_max" then
      match pyFloat value with
      | some q => .ok { p with max_isotype_score := some q }
      | none => .error ()
    else if key == "sort_by" then .ok { p with sort_by := some value }
    else if key == "order" then .ok { p with order := some (pyLower value) }
    else if key == "limit" then
      match pyInt value with
      | some n => .ok { p with limit := some n }
      | none => .error ()
    else if key == "sample" then .ok { p with sample := some (pyLower value) }
    else .ok p

/-- The `GET_TRNA` directive parser of the orchestrator:
`parts = plan_response.split()`, then the keyed `elif` chain over
`parts[1:]`.  A `ValueError` from `int`/`float` aborts the whole parse
(and, uncaught, the whole `process_message` call). -/
def parseGetTrna (plan : String) : Except Unit SearchParams :=
  ((pySplitWs plan).drop 1).foldlM parsePart {}

/-- Python dict insertion for the CRAP parameter dict: an existing key is
overwritten in place, a new key is appended. -/
def upsert (l : List (String × String)) (k v : String) : List (String × String) :=
  if l.any (fun kv => kv.1 == k) then
    l.map (fun kv => if kv.1 == k then (k, v) else kv)
  else l ++ [(k, v)]

/-- The `CRAP` directive parser of the orchestrator: every `key:"value"`
token is kept verbatim (no key filtering and no numeric conversion). -/
def parseCrap (plan : String) : List (String × String) :=
  ((pySplitWs plan).drop 1).foldl
    (fun ps part =>
      match splitOnce part ':' with
      | none => ps
      | some kv => upsert ps kv.1 (stripQuotes kv.2)) []

/-! ## The planning loop of `ChatProcessor.process_message`
(`chat/chatbot.py`, lines 282-608) -/

/-- Outbound event types crossing the system boundary (the `type` field of
each yielded JSON object). -/
inductive EvType
  | startResponse
  | token
  | endResponse
  | toolStart
  | toolProgress
  | sequenceData
  | error
deriving DecidableEq

/-- One outbound event: its type, whether the emitted JSON object carries
a `timestamp` field, and its content/message payload. -/
structure Event where
  type : EvType
  hasTimestamp : Bool
  content : String
deriving DecidableEq

def startResponseEv : Event := { type := .startResponse, hasTimestamp := true, content := "" }
def tokenEv (f : String) : Event := { type := .token, hasTimestamp := true, content := f }
def endResponseEv : Event := { type := .endResponse, hasTimestamp := true, content := "" }
def toolStartEv (m : String) : Event := { type := .toolStart, hasTimestamp := true, content := m }
def toolProgressEv (m : String) : Event := { type := .toolProgress, hasTimestamp := true, content := m }

/-- `yield json.dumps({'type': 'sequence_data', 'data': sequence})`
(chatbot.py line 445): no timestamp field. -/
def seqDataEv (r : Row) : Event := { type := .sequenceData, hasTimestamp := false, content := r.gene_symbol }

/-- `yield json.dumps({'type': 'error', 'message': error_msg})`
(chatbot.py lines 489 and 580, the tool-failure branches): no timestamp
field. -/
def toolErrEv (m : String) : Event := { type := .error, hasTimestamp := false, content := m }

/-- The error event of the outer `except` clause (chatbot.py line 604),
which does carry a timestamp. -/
def fatalErrEv (m : String) : Event := { type := .error, hasTimestamp := true, content := m }

/-- Items appended to `self.accumulated_data`. -/
inductive AccumItem
  | rna (r : Row)
  | crap (c : CrapData)
deriving DecidableEq

/-- The completion sentinel test:
`"PLAN_COMPLETE=True" in plan_response`. -/
def containsSentinel (plan : String) : Bool :=
  strContains plan "PLAN_COMPLETE=True"

/-- `result.error["message"] if result.error else "Unknown error"`. -/
def errMsg (r : MCPResponse) : String :=
  match r.error with
  | some e => e.message
  | none => "Unknown error"

/-- What the Python local `result` contributes to a later evaluation of
`len(result.data['sequences'])` (chatbot.py line 505): `some n` when the
stored response has a `data` dict with a `sequences` list of length `n`;
`none` when that evaluation would raise (`data` is `None`, or the key is
absent, as for every CRAP response). -/
def encodeResult (r : MCPResponse) : Option Nat :=
  r.data.bind (fun d => d.sequences.map List.length)

/-- Configuration of one `process_message` run: the iteration bound
(`getattr(settings, 'PLANNING_LOOP_MAX', 5)`), the planning agent as an
oracle from the planning-call index to its text output, the two tool
backends as oracles on their parsed parameters, and the response
streamer's fragment sequence. -/
structure LoopCfg where
  maxLoops : Nat
  planOracle : Nat → String
  rnaTool : SearchParams → MCPResponse
  crapTool : List (String × String) → MCPResponse
  fragments : List String

/-- Mutable state of one `process_message` run.  `resultVar` is the
Python local `result`: `none` before any tool call (a read raises
`NameError`), otherwise `some (encodeResult r)` for the last tool
response `r`.  `persisted` records the assistant messages created in the
conversation history. -/
structure LoopState where
  loopCount : Nat := 0
  planningCalls : Nat := 0
  toolCalls : Nat := 0
  lastPlan : Option String := none
  accumulated : List AccumItem := []
  dataSummary : String := ""
  resultVar : Option (Option Nat) := none
  nextMessageImage : Bool := false
  events : List Event := []
  persisted : List String := []
deriving DecidableEq

/-- Append one outbound event. -/
def emit (st : LoopState) (e : Event) : LoopState :=
  { st with events := st.events ++ [e] }

/-- Append a sequence of outbound events (a `for` loop of yields). -/
def emitAll (st : LoopState) (es : List Event) : LoopState :=
  { st with events := st.events ++ es }

/-- Summary string built after a successful `GET_TRNA` call
(chatbot.py lines 480-485). -/
def summaryFor (rows : List Row) : String :=
  joinWith "FETCHED DATA FOR \n"
    (("Retrieved " ++ toString rows.length ++ " sequences:")
      :: rows.map (fun r => "- " ++ r.gene_symbol ++ " (" ++ r.isotype ++ ")"))

/-- Summary string built after a successful `CRAP` call
(chatbot.py lines 548-554). -/
def crapSummary (c : CrapData) : String :=
  joinWith "\n"
    ["Retrieved genomic data:",
     "- Sequence length: " ++ toString c.sequence.length,
     "- Features: " ++ toString c.features.length,
     "- Tracks: " ++ String.intercalate ", " c.tracks]

/-- Result of one planning-loop iteration: continue looping, break to the
response phase, or abort through the outer `except` clause. -/
inductive StepRes
  | next (st : LoopState)
  | streamed (st : LoopState)
  | aborted (st : LoopState)
deriving DecidableEq

/-- The state carried by a `StepRes`. -/
def stateOf : StepRes → LoopState
  | .next st => st
  | .streamed st => st
  | .aborted st => st

/-- End-of-iteration bookkeeping (chatbot.py lines 598-599):
`last_plan_response = plan_response; loop_count += 1`. -/
def finishIter (st : LoopState) (plan : String) : LoopState :=
  { st with lastPlan := some plan, loopCount := st.loopCount + 1 }

/-- The response-streaming phase (chatbot.py lines 303-361): emit
`start_response`, one `token` event per generated fragment, persist the
concatenation of the fragments as the single new assistant message, emit
`end`, and break out of the loop. -/
def streamPhase (cfg : LoopCfg) (st : LoopState) : LoopState :=
  let st := { st with nextMessageImage := false }
  let st := emit st startResponseEv
  let st := emitAll st (cfg.fragments.map tokenEv)
  let st := { st with persisted := st.persisted ++ [String.join cfg.fragments] }
  emit st endResponseEv

/-- The `GET_TRNA` branch (chatbot.py lines 366-489): parse the directive
(a `ValueError` aborts the run with the outer error event), emit
`tool_start`, invoke the RNA tool, then either stream every returned
record as a `sequence_data` event and fold the records into the
accumulated data, or emit the single tool-failure `error` event; in both
tool-result cases the loop continues. -/
def execGetTrna (cfg : LoopCfg) (st : LoopState) (plan : String) : StepRes :=
  match parseGetTrna plan with
  | .error _ => .aborted (emit st (fatalErrEv "invalid literal for numeric conversion"))
  | .ok p =>
    let st := emit st (toolStartEv "Searching for tRNA sequences...")
    let resp := cfg.rnaTool p
    let st := { st with toolCalls := st.toolCalls + 1
                        resultVar := some (encodeResult resp) }
    if resp.status == "success" then
      match resp.data with
      | none => .aborted (emit st (fatalErrEv "argument of type NoneType is not iterable"))
      | some d =>
        match d.sequences with
        | some seqs =>
          let st := emitAll st (seqs.map seqDataEv)
          let st := { st with accumulated := st.accumulated ++ seqs.map AccumItem.rna
                              dataSummary := summaryFor seqs }
          .next (finishIter st plan)
        | none => .next (finishIter (emit st (toolErrEv (errMsg resp))) plan)
    else
      .next (finishIter (emit st (toolErrEv (errMsg resp))) plan)

/-- The `CRAP` branch (chatbot.py lines 491-580): parse the directive,
then emit a `tool_progress` event whose content reads
`len(result.data['sequences'])` from the PREVIOUS tool response — a
`NameError`/`TypeError`/`KeyError` aborting the run unless the last tool
response was a successful RNA search.  Then emit `tool_start`, invoke the
genome-browser tool, and on success fold its payload into the accumulated
data (recording a pending image message when present) or on failure emit
the single tool-failure `error` event; the loop continues either way. -/
def execCrap (cfg : LoopCfg) (st : LoopState) (plan : String) : StepRes :=
  let ps := parseCrap plan
  match st.resultVar with
  | none => .aborted (emit st (fatalErrEv "name result is not defined"))
  | some none => .aborted (emit st (fatalErrEv "result.data has no sequences"))
  | some (some n) =>
    let st := emit st (toolProgressEv ("Found " ++ toString n ++ " sequences"))
    let st := emit st (toolStartEv "Surfing the genome browser...")
    let resp := cfg.crapTool ps
    let st := { st with toolCalls := st.toolCalls + 1
                        resultVar := some (encodeResult resp) }
    if resp.status == "success" then
      match resp.data with
      | none => .aborted (emit st (fatalErrEv "NoneType is not subscriptable"))
      | some d =>
        match d.crap with
        | none => .aborted (emit st (fatalErrEv "KeyError: sequence"))
        | some c =>
          let st := emit st (toolProgressEv "Retrieved genomic data")
          let st := { st with accumulated := st.accumulated ++ [AccumItem.crap c]
                              dataSummary := crapSummary c
                              nextMessageImage := c.image.isSome }
          .next (finishIter st plan)
    else
      .next (finishIter (emit st (toolErrEv (errMsg resp))) plan)

/-- One iteration of the planning loop: call the planning agent, then
either break to the response phase (`loop_count >= max_loops - 1 or
"PLAN_COMPLETE=True" in plan_response`), execute the matching tool branch,
or fall through treating the output as a no-op step. -/
def stepIter (cfg : LoopCfg) (st : LoopState) : StepRes :=
  let plan := cfg.planOracle st.planningCalls
  let st := { st with planningCalls := st.planningCalls + 1 }
  if cfg.maxLoops - 1 ≤ st.loopCount || containsSentinel plan then
    .streamed (streamPhase cfg st)
  else if pyStartsWith plan "GET_TRNA" then
    execGetTrna cfg st plan
  else if pyStartsWith plan "CRAP" then
    execCrap cfg st plan
  else
    .next (finishIter st plan)

/-- How one `process_message` run ended: the response phase streamed and
the run completed, the loop's `while` condition became false without ever
streaming (possible only with a zero iteration budget), or an uncaught
exception reached the outer `except` clause. -/
inductive LoopOutcome
  | streamedOut
  | exhausted
  | abortedOut
deriving DecidableEq

/-- The `while loop_count < max_loops` loop, driven by the remaining
iteration budget (`fuel = max_loops - loop_count`). -/
def runAux (cfg : LoopCfg) : Nat → LoopState → LoopState × LoopOutcome
  | 0, st => (st, .exhausted)
  | fuel + 1, st =>
    match stepIter cfg st with
    | .streamed s => (s, .streamedOut)
    | .aborted s => (s, .abortedOut)
    | .next s => runAux cfg fuel s

/-- `ChatProcessor.process_message`: run the planning loop from the
initial state (loop counter zero, empty accumulated data, no events). -/
def process_message (cfg : LoopCfg) : LoopState × LoopOutcome :=
  runAux cfg cfg.maxLoops {}

/-- The fragments streamed as `token` events, in emission order. -/
def tokenContents (es : List Event) : List String :=
  es.filterMap (fun e => if e.type == .token then some e.content else none)

/-- Number of `error` events in a trace. -/
def countErr (es : List Event) : Nat :=
  (es.filter (fun e => e.type == .error)).length

/-! ## Caching tool wrapper (`chat/tool_wrappers.py`: `CachedTool`, over
the in-memory cache of `chat/cache.py`)

`CachedTool.process_request` computes the fingerprint
`f"tool:{cls}:{hash(f'{method}:{params}')}"` from the wrapped tool's class
name, the request method and the parameter mapping; the fingerprint is
modelled by that triple itself.  The in-memory cache stores the response
object and returns it unchanged on a hit (for an `MCPResponse` the
serialisation attempt in `InMemoryCache.set` falls back to storing the
original object, and `get` returns a non-string value as is); its `expiry`
argument is ignored by `InMemoryCache`, so a hit is available for the
whole TTL.  `calls` counts invocations of the wrapped (metrics-monitored)
tool, i.e. the metrics wrapper's `total_calls`. -/

structure MCPReq where
  method : String
  params : List (String × String)
deriving DecidableEq

/-- The wrapped tool: its class name (part of the cache fingerprint) and
its `process_request` behaviour. -/
structure WrappedTool where
  toolName : String
  tool : MCPReq → MCPResponse

/-- Cache fingerprint of a request. -/
def fingerprint (t : WrappedTool) (r : MCPReq) : String × MCPReq :=
  (t.toolName, r)

/-- Shared cache plus the underlying call counter. -/
structure CacheSt where
  entries : List ((String × MCPReq) × MCPResponse) := []
  calls : Nat := 0

/-- `cache.get` on the fingerprint. -/
def lookupCache (entries : List ((String × MCPReq) × MCPResponse))
    (key : String × MCPReq) : Option MCPResponse :=
  (entries.find? (fun kv => kv.1 == key)).map (fun kv => kv.2)

/-- `CachedTool.process_request`: return the cached response on a hit;
otherwise invoke the underlying tool and cache the response only when its
status is `success`. -/
def cachedProcessRequest (t : WrappedTool) (st : CacheSt) (r : MCPReq) :
    MCPResponse × CacheSt :=
  let key := fingerprint t r
  match lookupCache st.entries key with
  | some resp => (resp, st)
  | none =>
    let resp := t.tool r
    let st := { st with calls := st.calls + 1 }
    if resp.status == "success" then
      (resp, { st with entries := st.entries ++ [(key, resp)] })
    else
      (resp, st)

/-- The timestamp discipline the emitted events actually satisfy: every
event other than `sequence_data` and `error` events carries a timestamp,
and `sequence_data` events never do (`error` events are unconstrained:
the tool-failure ones carry none, the fatal one does). -/
def timestampPolicy (e : Event) : Bool :=
  if e.type == .sequenceData then !e.hasTimestamp
  else if e.type == .error then true
  else e.hasTimestamp

/-- All events of a trace respect the timestamp discipline. -/
def EventsOk (es : List Event) : Prop :=
  ∀ e ∈ es, timestampPolicy e = true

/-! ## Demonstration data used by the concrete evaluations -/

/-- A human tRNA row for concrete runs. -/
def rowDemo : Row :=
  { gene_symbol := "tRNA-Ala-AGC-1-1", anticodon := "AGC", isotype := "Ala",
    general_score := 70, isotype_score := 100, model_agreement := true,
    features := "high confidence", locus := "chr6", sequences := "GGGGGTT",
    overview := "ov" }

/-- A second row, living in the non-human tables. -/
def rowDemo2 : Row :=
  { rowDemo with
    gene_symbol := "tRNA-Gly-GCC-2-1"
    anticodon := "GCC"
    isotype := "Gly" }

/-- A demonstration database: a human table with 60 matching rows (more
than any ceiling under discussion) and small other tables. -/
def dbDemo : String → List Row :=
  fun s => if s == "human" then List.replicate 60 rowDemo else [rowDemo2]

/-- A generic failure response, as produced by the adapters' `except`
clauses. -/
def errorResp : MCPResponse :=
  { status := "error"
    error := some { code := "SEARCH_ERROR", message := "database locked" } }

/-- Run whose first planning output has a malformed numeric value. -/
def cfgC2 : LoopCfg :=
  { maxLoops := 5
    planOracle := fun _ => "GET_TRNA limit:\"abc\" Anticodon:\"TCT\""
    rnaTool := fun p => handle_search dbDemo p
    crapTool := fun _ => errorResp
    fragments := ["Done."] }

/-- Run whose first planning output has an unknown key and a malformed
numeric value. -/
def cfgC2w : LoopCfg :=
  { maxLoops := 5
    planOracle := fun _ => "GET_TRNA limit:\"oops\""
    rnaTool := fun p => handle_search dbDemo p
    crapTool := fun _ => errorResp
    fragments := ["Done."] }

/-- Run whose planning outputs are neither directives nor the sentinel. -/
def cfgC3 : LoopCfg :=
  { maxLoops := 5
    planOracle := fun _ => "Let me think about the question some more."
    rnaTool := fun p => handle_search dbDemo p
    crapTool := fun _ => errorResp
    fragments := ["Here is my answer."] }

/-- Run whose first planning output carries the completion sentinel. -/
def cfgC5w : LoopCfg :=
  { maxLoops := 5
    planOracle := fun _ => "All data collected. PLAN_COMPLETE=True"
    rnaTool := fun p => handle_search dbDemo p
    crapTool := fun _ => errorResp
    fragments := ["Hello."] }

/-- Run whose first planning output is a `GET_TRNA` directive and whose
RNA backend fails. -/
def cfgC6a : LoopCfg :=
  { maxLoops := 5
    planOracle := fun _ => "GET_TRNA Anticodon:\"AGC\" species:\"yeast\""
    rnaTool := fun _ => errorResp
    crapTool := fun _ => errorResp
    fragments := ["Sorry."] }

/-- Run whose first planning output is a `CRAP` directive and whose
genome-browser backend fails. -/
def cfgC6b : LoopCfg :=
  { maxLoops := 5
    planOracle := fun _ => "CRAP chrom:\"chr1\" start:\"100\" end:\"200\""
    rnaTool := fun _ => errorResp
    crapTool := fun _ => errorResp
    fragments := ["Sorry."] }

/-- A loop state in which the previous tool call was a successful RNA
search returning two records. -/
def stC6 : LoopState := { resultVar := some (some 2) }

/-- A loop state already on the final allowed iteration of a five-step
budget. -/
def stLast : LoopState := { loopCount := 4 }

/-- Run with one successful `GET_TRNA` call, one failing `GET_TRNA` call,
then the sentinel. -/
def cfgC8 : LoopCfg :=
  { maxLoops := 5
    planOracle := fun i =>
      if i == 0 then "GET_TRNA Anticodon:\"AGC\""
      else if i == 1 then "GET_TRNA Anticodon:\"ZZZ\" species:\"human\""
      else "PLAN_COMPLETE=True"
    rnaTool := fun p =>
      if p.anticodon == some "AGC" then handle_search dbDemo p else errorResp
    crapTool := fun _ => errorResp
    fragments := ["The sequences are shown above."] }

/-- Run that immediately completes and streams two fragments. -/
def cfgC9w : LoopCfg :=
  { maxLoops := 5
    planOracle := fun _ => "PLAN_COMPLETE=True"
    rnaTool := fun p => handle_search dbDemo p
    crapTool := fun _ => errorResp
    fragments := ["Hello, ", "here are your tRNAs."] }

/-- A wrapped tool whose backend always succeeds. -/
def toolOkW : WrappedTool :=
  { toolName := "RNADatabaseMCP"
    tool := fun _ => { status := "success", data := some {} } }

/-- A wrapped tool whose backend always fails. -/
def toolFailW : WrappedTool :=
  { toolName := "CrapMCP", tool := fun _ => errorResp }

/-- A concrete cacheable request. -/
def reqW : MCPReq :=
  { method := "search_rna", params := [("isotype", "Ala"), ("limit", "5")] }

/-- Search parameters naming an unsupported species. -/
def pC10 : SearchParams :=
  { species := some "martian", anticodon := some "AGC", limit := some 2 }

/-- Lookup parameters naming an unsupported species. -/
def qC10 : GetSeqParams :=
  { gene_symbol := some "tRNA-Ala-AGC-1-1", species := some "Martian" }

/-! ## Basic facts about the loop embedding -/

theorem emit_planningCalls (st : LoopState) (e : Event) :
    (emit st e).planningCalls = st.planningCalls := rfl

theorem emit_toolCalls (st : LoopState) (e : Event) :
    (emit st e).toolCalls = st.toolCalls := rfl

theorem emit_persisted (st : LoopState) (e : Event) :
    (emit st e).persisted = st.persisted := rfl

theorem emit_events (st : LoopState) (e : Event) :
    (emit st e).events = st.events ++ [e] := rfl

theorem emitAll_events (st : LoopState) (es : List Event) :
    (emitAll st es).events = st.events ++ es := rfl

theorem streamPhase_planningCalls (cfg : LoopCfg) (st : LoopState) :
    (streamPhase cfg st).planningCalls = st.planningCalls := rfl

theorem streamPhase_toolCalls (cfg : LoopCfg) (st : LoopState) :
    (streamPhase cfg st).toolCalls = st.toolCalls := rfl

theorem streamPhase_events (cfg : LoopCfg) (st : LoopState) :
    (streamPhase cfg st).events =
      st.events ++ [startResponseEv] ++ cfg.fragments.map tokenEv ++ [endResponseEv] := rfl

theorem streamPhase_persisted (cfg : LoopCfg) (st : LoopState) :
    (streamPhase cfg st).persisted = st.persisted ++ [String.join cfg.fragments] := rfl

theorem execGetTrna_planningCalls (cfg : LoopCfg) (st : LoopState) (plan : String) :
    (stateOf (execGetTrna cfg st plan)).planningCalls = st.planningCalls := by
  simp only [execGetTrna]
  repeat' split
  all_goals simp [stateOf, emit, emitAll, finishIter]

theorem execCrap_planningCalls (cfg : LoopCfg) (st : LoopState) (plan : String) :
    (stateOf (execCrap cfg st plan)).planningCalls = st.planningCalls := by
  simp only [execCrap]
  repeat' split
  all_goals simp [stateOf, emit, emitAll, finishIter]

theorem stepIter_planningCalls (cfg : LoopCfg) (st : LoopState) :
    (stateOf (stepIter cfg st)).planningCalls = st.planningCalls + 1 := by
  simp only [stepIter]
  repeat' split
  all_goals first
    | rfl
    | rw [execGetTrna_planningCalls]
    | rw [execCrap_planningCalls]

theorem runAux_planningCalls_le (cfg : LoopCfg) :
    ∀ fuel st, ((runAux cfg fuel st).1).planningCalls ≤ st.planningCalls + fuel := by
  intro fuel
  induction fuel with
  | zero => intro st; simp [runAux]
  | succ n ih =>
    intro st
    have hpc := stepIter_planningCalls cfg st
    cases h : stepIter cfg st with
    | streamed s =>
      rw [h] at hpc; simp only [stateOf] at hpc
      simp only [runAux, h]
      omega
    | aborted s =>
      rw [h] at hpc; simp only [stateOf] at hpc
      simp only [runAux, h]
      omega
    | next s =>
      rw [h] at hpc; simp only [stateOf] at hpc
      simp only [runAux, h]
      have := ih s
      omega

theorem runAux_planningCalls_mono (cfg : LoopCfg) :
    ∀ fuel st, st.planningCalls ≤ ((runAux cfg fuel st).1).planningCalls := by
  intro fuel
  induction fuel with
  | zero => intro st; simp [runAux]
  | succ n ih =>
    intro st
    have hpc := stepIter_planningCalls cfg st
    cases h : stepIter cfg st with
    | streamed s =>
      rw [h] at hpc; simp only [stateOf] at hpc
      simp only [runAux, h]; omega
    | aborted s =>
      rw [h] at hpc; simp only [stateOf] at hpc
      simp only [runAux, h]; omega
    | next s =>
      rw [h] at hpc; simp only [stateOf] at hpc
      simp only [runAux, h]
      have := ih s
      omega

theorem runAux_makes_call (cfg : LoopCfg) (fuel : Nat) (st : LoopState) :
    st.planningCalls + 1 ≤ ((runAux cfg (fuel + 1) st).1).planningCalls := by
  have hpc := stepIter_planningCalls cfg st
  cases h : stepIter cfg st with
  | streamed s =>
    rw [h] at hpc; simp only [stateOf] at hpc
    simp only [runAux, h]; omega
  | aborted s =>
    rw [h] at hpc; simp only [stateOf] at hpc
    simp only [runAux, h]; omega
  | next s =>
    rw [h] at hpc; simp only [stateOf] at hpc
    simp only [runAux, h]
    have := runAux_planningCalls_mono cfg fuel s
    omega

theorem tokenContents_append (a b : List Event) :
    tokenContents (a ++ b) = tokenContents a ++ tokenContents b := by
  simp [tokenContents]

theorem tokenContents_tokenEvs (l : List String) :
    tokenContents (l.map tokenEv) = l := by
  induction l <;> simp_all [tokenContents, tokenEv]

theorem tokenContents_seqDataEvs (l : List Row) :
    tokenContents (l.map seqDataEv) = [] := by
  induction l <;> simp_all [tokenContents, seqDataEv]

theorem tc_nil : tokenContents [] = [] := rfl

theorem tc_cons_token (f : String) (es : List Event) :
    tokenContents (tokenEv f :: es) = f :: tokenContents es := by
  simp [tokenContents, tokenEv]

theorem tc_cons_toolStart (m : String) (es : List Event) :
    tokenContents (toolStartEv m :: es) = tokenContents es := by
  simp [tokenContents, toolStartEv]

theorem tc_cons_toolProgress (m : String) (es : List Event) :
    tokenContents (toolProgressEv m :: es) = tokenContents es := by
  simp [tokenContents, toolProgressEv]

theorem tc_cons_toolErr (m : String) (es : List Event) :
    tokenContents (toolErrEv m :: es) = tokenContents es := by
  simp [tokenContents, toolErrEv]

theorem tc_cons_fatal (m : String) (es : List Event) :
    tokenContents (fatalErrEv m :: es) = tokenContents es := by
  simp [tokenContents, fatalErrEv]

theorem tc_cons_startResponse (es : List Event) :
    tokenContents (startResponseEv :: es) = tokenContents es := by
  simp [tokenContents, startResponseEv]

theorem tc_cons_endResponse (es : List Event) :
    tokenContents (endResponseEv :: es) = tokenContents es := by
  simp [tokenContents, endResponseEv]

theorem stepIter_next_tok {cfg : LoopCfg} {st : LoopState} {s : LoopState}
    (h : stepIter cfg st = .next s) :
    tokenContents s.events = tokenContents st.events ∧ s.persisted = st.persisted := by
  simp only [stepIter, execGetTrna, execCrap] at h
  repeat' split at h
  all_goals cases h
  all_goals constructor
  all_goals
    simp [finishIter, emit, emitAll, tokenContents_append, tokenContents_tokenEvs,
      tokenContents_seqDataEvs, tc_nil, tc_cons_token, tc_cons_toolStart,
      tc_cons_toolProgress, tc_cons_toolErr, tc_cons_fatal, tc_cons_startResponse,
      tc_cons_endResponse]

theorem stepIter_aborted_tok {cfg : LoopCfg} {st : LoopState} {s : LoopState}
    (h : stepIter cfg st = .aborted s) :
    tokenContents s.events = tokenContents st.events ∧ s.persisted = st.persisted := by
  simp only [stepIter, execGetTrna, execCrap] at h
  repeat' split at h
  all_goals cases h
  all_goals constructor
  all_goals
    simp [finishIter, emit, emitAll, tokenContents_append, tokenContents_tokenEvs,
      tokenContents_seqDataEvs, tc_nil, tc_cons_token, tc_cons_toolStart,
      tc_cons_toolProgress, tc_cons_toolErr, tc_cons_fatal, tc_cons_startResponse,
      tc_cons_endResponse]

theorem stepIter_streamed_tok {cfg : LoopCfg} {st : LoopState} {s : LoopState}
    (h : stepIter cfg st = .streamed s) :
    tokenContents s.events = tokenContents st.events ++ cfg.fragments ∧
      s.persisted = st.persisted ++ [String.join cfg.fragments] := by
  simp only [stepIter, execGetTrna, execCrap] at h
  repeat' split at h
  all_goals cases h
  all_goals constructor
  all_goals
    simp [streamPhase, finishIter, emit, emitAll, tokenContents_append,
      tokenContents_tokenEvs, tokenContents_seqDataEvs, tc_nil, tc_cons_token,
      tc_cons_toolStart, tc_cons_toolProgress, tc_cons_toolErr, tc_cons_fatal,
      tc_cons_startResponse, tc_cons_endResponse]

theorem runAux_streamed_tok (cfg : LoopCfg) :
    ∀ fuel st, (runAux cfg fuel st).2 = .streamedOut →
      tokenContents ((runAux cfg fuel st).1).events = tokenContents st.events ++ cfg.fragments ∧
      ((runAux cfg fuel st).1).persisted = st.persisted ++ [String.join cfg.fragments] := by
  intro fuel
  induction fuel with
  | zero => intro st h; simp [runAux] at h
  | succ n ih =>
    intro st h
    cases hs : stepIter cfg st with
    | streamed s =>
      simp only [runAux, hs]
      exact stepIter_streamed_tok hs
    | aborted s =>
      simp [runAux, hs] at h
    | next s =>
      simp only [runAux, hs] at h ⊢
      have h1 := stepIter_next_tok hs
      have h2 := ih s h
      rw [h2.1, h2.2, h1.1, h1.2]
      exact ⟨rfl, rfl⟩

theorem policy_token (f : String) : timestampPolicy (tokenEv f) = true := rfl

theorem policy_seqData (r : Row) : timestampPolicy (seqDataEv r) = true := rfl

theorem policy_toolStart (m : String) : timestampPolicy (toolStartEv m) = true := rfl

theorem policy_toolProgress (m : String) : timestampPolicy (toolProgressEv m) = true := rfl

theorem policy_toolErr (m : String) : timestampPolicy (toolErrEv m) = true := rfl

theorem policy_fatal (m : String) : timestampPolicy (fatalErrEv m) = true := rfl

theorem policy_startResponse : timestampPolicy startResponseEv = true := rfl

theorem policy_endResponse : timestampPolicy endResponseEv = true := rfl

theorem EventsOk_append {a b : List Event} (ha : EventsOk a) (hb : EventsOk b) :
    EventsOk (a ++ b) := by
  intro e he
  rcases List.mem_append.mp he with h | h
  exacts [ha e h, hb e h]

theorem EventsOk_singleton {e : Event} (h : timestampPolicy e = true) :
    EventsOk [e] := by
  intro x hx
  rw [List.mem_singleton] at hx
  subst hx
  exact h

theorem EventsOk_map_seqData (l : List Row) : EventsOk (l.map seqDataEv) := by
  intro e he
  obtain ⟨r, _, rfl⟩ := List.mem_map.mp he
  exact policy_seqData r

theorem EventsOk_map_token (l : List String) : EventsOk (l.map tokenEv) := by
  intro e he
  obtain ⟨f, _, rfl⟩ := List.mem_map.mp he
  exact policy_token f

theorem stepIter_policy (cfg : LoopCfg) (st : LoopState)
    (h : EventsOk st.events) :
    EventsOk (stateOf (stepIter cfg st)).events := by
  simp only [stepIter, execGetTrna, execCrap, streamPhase, finishIter, emit, emitAll]
  repeat' split
  all_goals dsimp only [stateOf]
  all_goals
    repeat' first
      | exact h
      | apply EventsOk_append
      | exact EventsOk_singleton (policy_toolStart _)
      | exact EventsOk_singleton (policy_toolProgress _)
      | exact EventsOk_singleton (policy_toolErr _)
      | exact EventsOk_singleton (policy_fatal _)
      | exact EventsOk_singleton policy_startResponse
      | exact EventsOk_singleton policy_endResponse
      | exact EventsOk_map_seqData _
      | exact EventsOk_map_token _

theorem runAux_policy (cfg : LoopCfg) :
    ∀ fuel st, EventsOk st.events → EventsOk ((runAux cfg fuel st).1).events := by
  intro fuel
  induction fuel with
  | zero => intro st h; simpa [runAux] using h
  | succ n ih =>
    intro st h
    have hstep := stepIter_policy cfg st h
    cases hs : stepIter cfg st with
    | streamed s =>
      rw [hs] at hstep
      simpa [runAux, hs] using hstep
    | aborted s =>
      rw [hs] at hstep
      simpa [runAux, hs] using hstep
    | next s =>
      rw [hs] at hstep
      simp only [runAux, hs]
      exact ih s hstep

/-! ## Species handling and limit handling of the RNA adapter -/

theorem effSpecies_of_invalid {sp : Option String}
    (h : speciesAbsentOrInvalid sp = true) :
    effectiveSpecies sp = "human" := by
  cases sp with
  | none => rfl
  | some s =>
    have hc : validSpeciesL.contains (pyLower s) = false := by
      simpa [speciesAbsentOrInvalid] using h
    simp only [effectiveSpecies, Option.getD_some]
    rw [hc]
    simp

theorem handle_search_eq_of_eff {db : String → List Row} {p p' : SearchParams}
    (hbrk : searchBroken p = searchBroken p')
    (heff : effectiveSpecies p.species = effectiveSpecies p'.species)
    (hmatch : rowMatches p = rowMatches p')
    (hsort : sortRows p = sortRows p')
    (hlim : p.limit = p'.limit) :
    handle_search db p = handle_search db p' := by
  simp only [handle_search, hbrk, heff, hmatch, hsort, hlim]

theorem handle_get_sequence_eq_of_eff {db : String → List Row} {q q' : GetSeqParams}
    (hg : q.gene_symbol = q'.gene_symbol)
    (heff : effectiveSpecies q.species = effectiveSpecies q'.species) :
    handle_get_sequence db q = handle_get_sequence db q' := by
  simp only [handle_get_sequence, hg, heff]

theorem handle_search_success (db : String → List Row) (p : SearchParams)
    (h : searchBroken p = false) :
    (handle_search db p).status = "success" := by
  simp [handle_search, h]

theorem handle_search_not_invalid (db : String → List Row) (p : SearchParams) :
    errCode (handle_search db p) ≠ some "INVALID_PARAM" := by
  cases hb : searchBroken p <;> simp [handle_search, hb, errCode]

theorem handle_get_sequence_not_invalid (db : String → List Row) (q : GetSeqParams) :
    errCode (handle_get_sequence db q) ≠ some "INVALID_PARAM" := by
  simp only [handle_get_sequence]
  repeat' split
  all_goals simp [errCode]

/-- Claim C1 (evaluation of the code at the failing input): the search
operation of the RNA database adapter does NOT clamp the requested limit
to its ceiling of 10.  Against a human table with 60 matching rows, a
request with `limit` 50 returns 50 records — not `min 50 10 = 10` — while
the ceiling of 10 is applied only as a default when no limit was
requested.  The requested limit is trusted verbatim, contradicting the
claim. -/
theorem c1_limit_passed_verbatim :
    resultCount (handle_search dbDemo { limit := some 50 }) = 50 ∧
    resultCount (handle_search dbDemo {}) = 10 := by
  constructor <;> rfl

/-- Claim C10: a `search_rna` or `get_sequence` request whose `species`
parameter is absent or names an unsupported species is answered exactly as
the same request for `human` — no `INVALID_PARAM` failure exists in the
adapter, and the search succeeds whenever its SQL is well formed. -/
theorem c10_species_fallback (db : String → List Row) (p : SearchParams)
    (q : GetSeqParams)
    (hp : speciesAbsentOrInvalid p.species = true)
    (hq : speciesAbsentOrInvalid q.species = true) :
    handle_search db p = handle_search db { p with species := some "human" } ∧
    (searchBroken p = false → (handle_search db p).status = "success") ∧
    errCode (handle_search db p) ≠ some "INVALID_PARAM" ∧
    handle_get_sequence db q =
      handle_get_sequence db { q with species := some "human" } ∧
    errCode (handle_get_sequence db q) ≠ some "INVALID_PARAM" := by
  refine ⟨?_, fun hbrk => handle_search_success db p hbrk,
    handle_search_not_invalid db p, ?_, handle_get_sequence_not_invalid db q⟩
  · exact handle_search_eq_of_eff rfl
      ((effSpecies_of_invalid hp).trans (rfl : effectiveSpecies (some "human") = "human").symm)
      rfl rfl rfl
  · exact handle_get_sequence_eq_of_eff rfl
      ((effSpecies_of_invalid hq).trans (rfl : effectiveSpecies (some "human") = "human").symm)

/-- Claim C10 witness: concrete requests naming the species `martian` and
`Martian` behave exactly as human requests and succeed. -/
theorem c10_species_fallback_witness :
    speciesAbsentOrInvalid pC10.species = true ∧
    speciesAbsentOrInvalid qC10.species = true ∧
    (handle_search dbDemo pC10 =
       handle_search dbDemo { pC10 with species := some "human" } ∧
     (searchBroken pC10 = false → (handle_search dbDemo pC10).status = "success") ∧
     errCode (handle_search dbDemo pC10) ≠ some "INVALID_PARAM" ∧
     handle_get_sequence dbDemo qC10 =
       handle_get_sequence dbDemo { qC10 with species := some "human" } ∧
     errCode (handle_get_sequence dbDemo qC10) ≠ some "INVALID_PARAM") ∧
    (handle_search dbDemo pC10).status = "success" ∧
    resultCount (handle_search dbDemo pC10) = 2 ∧
    (handle_get_sequence dbDemo qC10).status = "success" :=
  ⟨by rfl, by rfl, c10_species_fallback dbDemo pC10 qC10 (by rfl) (by rfl),
   by rfl, by rfl, by rfl⟩

/-! ## Error-event counting -/

theorem countErr_append (a b : List Event) :
    countErr (a ++ b) = countErr a + countErr b := by
  simp [countErr]

theorem countErr_toolStart (m : String) : countErr [toolStartEv m] = 0 := rfl

theorem countErr_toolProgress (m : String) : countErr [toolProgressEv m] = 0 := rfl

theorem countErr_toolErr (m : String) : countErr [toolErrEv m] = 1 := rfl

theorem countErr_cons_toolStart (m : String) (es : List Event) :
    countErr (toolStartEv m :: es) = countErr es := by
  simp [countErr, toolStartEv]

theorem countErr_cons_toolProgress (m : String) (es : List Event) :
    countErr (toolProgressEv m :: es) = countErr es := by
  simp [countErr, toolProgressEv]

theorem countErr_nil : countErr [] = 0 := rfl

theorem countErr_cons_toolErr (m : String) (es : List Event) :
    countErr (toolErrEv m :: es) = countErr es + 1 := by
  simp [countErr, toolErrEv]

/-! ## Claims about the planning loop -/

/-- Claim C2 counterexample: the directive
`GET_TRNA limit:"abc" Anticodon:"TCT"` has a malformed numeric value for
`limit`.  Contrary to the claim, the failure does not invalidate only the
`limit` key: the whole parse raises, the outer handler emits the fatal
error event, and the run aborts after a single planning call with no tool
invocation — the other keys are not used and the loop does not continue. -/
theorem c2_counterexample :
    parseGetTrna "GET_TRNA limit:\"abc\" Anticodon:\"TCT\"" = .error () ∧
    (process_message cfgC2).2 = .abortedOut ∧
    ((process_message cfgC2).1).planningCalls = 1 ∧
    ((process_message cfgC2).1).toolCalls = 0 :=
  ⟨rfl, rfl, rfl, rfl⟩

/-- Claim C2 (amended): in the `GET_TRNA` directive parser, an unknown
key is dropped without error; but a numeric-valued key whose value fails
numeric parsing raises an uncaught conversion error that aborts the whole
planning loop — the run ends with a single (timestamped) fatal error
event, no tool call, and no further planning calls. -/
theorem c2_amended :
    (∀ (p : SearchParams) (part key raw : String),
      splitOnce part ':' = some (key, raw) →
      key ∉ recognizedKeys →
      parsePart p part = .ok p) ∧
    (∀ (cfg : LoopCfg) (st : LoopState) (fuel : Nat),
      containsSentinel (cfg.planOracle st.planningCalls) = false →
      st.loopCount < cfg.maxLoops - 1 →
      pyStartsWith (cfg.planOracle st.planningCalls) "GET_TRNA" = true →
      parseGetTrna (cfg.planOracle st.planningCalls) = .error () →
      runAux cfg (fuel + 1) st =
        (emit { st with planningCalls := st.planningCalls + 1 }
          (fatalErrEv "invalid literal for numeric conversion"), .abortedOut)) := by
  constructor
  · intro p part key raw hsplit hk
    simp only [recognizedKeys, List.mem_cons, List.not_mem_nil, or_false] at hk
    push_neg at hk
    obtain ⟨h1, h2, h3, h4, h5, h6, h7, h8, h9, h10, h11, h12, h13⟩ := hk
    simp [parsePart, hsplit, h1, h2, h3, h4, h5, h6, h7, h8, h9, h10, h11, h12, h13]
  · intro cfg st fuel hsent hloop hstart hparse
    have hnot : ¬(cfg.maxLoops - 1 ≤ st.loopCount) := by omega
    have hcond : (decide (cfg.maxLoops - 1 ≤ st.loopCount)
        || containsSentinel (cfg.planOracle st.planningCalls)) = false := by
      rw [hsent, decide_eq_false hnot]
      rfl
    have hstep : stepIter cfg st =
        .aborted (emit { st with planningCalls := st.planningCalls + 1 }
          (fatalErrEv "invalid literal for numeric conversion")) := by
      simp only [stepIter]
      rw [hcond, if_neg Bool.false_ne_true, hstart, if_pos rfl]
      simp only [execGetTrna, hparse]
    simp only [runAux, hstep]

/-- Claim C2 witness: the amended statement at concrete inputs. -/
theorem c2_amended_witness :
    parsePart {} "frobnicate:\"1\"" = .ok {} ∧
    runAux cfgC2w 5 {} =
      (emit { planningCalls := 1 }
        (fatalErrEv "invalid literal for numeric conversion"), .abortedOut) :=
  ⟨c2_amended.1 {} "frobnicate:\"1\"" "frobnicate" "\"1\"" rfl (by decide),
   c2_amended.2 cfgC2w {} 4 rfl (by decide) rfl rfl⟩

/-- Claim C3 counterexample: with every planning output equal to the
unparseable text `Let me think about the question some more.` (no
directive, no sentinel) and a budget of 5, the orchestrator does NOT exit
to the response phase after the first such output: it performs five
planning calls before streaming, contradicting the claim that such output
causes an immediate transition with no further planning iterations. -/
theorem c3_counterexample :
    pyStartsWith (cfgC3.planOracle 0) "GET_TRNA" = false ∧
    pyStartsWith (cfgC3.planOracle 0) "CRAP" = false ∧
    containsSentinel (cfgC3.planOracle 0) = false ∧
    ((process_message cfgC3).1).planningCalls = 5 ∧
    ((process_message cfgC3).1).toolCalls = 0 ∧
    (process_message cfgC3).2 = .streamedOut :=
  ⟨rfl, rfl, rfl, rfl, rfl, rfl⟩

/-- Claim C3 (amended): a planning output that is neither a recognized
tool directive nor contains the sentinel is treated as a non-fatal no-op
step — no events, no tool call, the budget is consumed and the loop
continues — and the orchestrator transitions to the response-streaming
phase only when the sentinel appears or the final allowed iteration is
reached (the forced transition on the last iteration). -/
theorem c3_amended :
    (∀ (cfg : LoopCfg) (st : LoopState),
      containsSentinel (cfg.planOracle st.planningCalls) = false →
      st.loopCount < cfg.maxLoops - 1 →
      pyStartsWith (cfg.planOracle st.planningCalls) "GET_TRNA" = false →
      pyStartsWith (cfg.planOracle st.planningCalls) "CRAP" = false →
      stepIter cfg st = .next { st with
        planningCalls := st.planningCalls + 1
        lastPlan := some (cfg.planOracle st.planningCalls)
        loopCount := st.loopCount + 1 }) ∧
    (∀ (cfg : LoopCfg) (st : LoopState),
      cfg.maxLoops - 1 ≤ st.loopCount →
      stepIter cfg st =
        .streamed (streamPhase cfg { st with planningCalls := st.planningCalls + 1 })) := by
  constructor
  · intro cfg st hsent hloop h1 h2
    have hnot : ¬(cfg.maxLoops - 1 ≤ st.loopCount) := by omega
    have hcond : (decide (cfg.maxLoops - 1 ≤ st.loopCount)
        || containsSentinel (cfg.planOracle st.planningCalls)) = false := by
      rw [hsent, decide_eq_false hnot]
      rfl
    simp only [stepIter]
    rw [hcond, if_neg Bool.false_ne_true, h1, if_neg Bool.false_ne_true, h2,
      if_neg Bool.false_ne_true]
    simp [finishIter]
  · intro cfg st hlast
    have hcond : (decide (cfg.maxLoops - 1 ≤ st.loopCount)
        || containsSentinel (cfg.planOracle st.planningCalls)) = true := by
      rw [decide_eq_true hlast]
      exact Bool.true_or _
    simp only [stepIter]
    rw [hcond, if_pos rfl]

/-- Claim C3 witness: the amended statement at concrete inputs. -/
theorem c3_amended_witness :
    containsSentinel (cfgC3.planOracle 0) = false ∧
    (0 : Nat) < cfgC3.maxLoops - 1 ∧
    stepIter cfgC3 {} = .next { planningCalls := 1
                                lastPlan := some (cfgC3.planOracle 0)
                                loopCount := 1 } ∧
    cfgC3.maxLoops - 1 ≤ stLast.loopCount ∧
    stepIter cfgC3 stLast =
      .streamed (streamPhase cfgC3 { stLast with planningCalls := 1 }) :=
  ⟨rfl, by decide, c3_amended.1 cfgC3 {} rfl (by decide) rfl rfl, by decide,
   c3_amended.2 cfgC3 stLast (by decide)⟩

/-- Claim C4: in every run, the number of planning-agent invocations
never exceeds the configured maximum number of loop iterations
(`PLANNING_LOOP_MAX`, default 5), whatever the planning outputs —
including when every directive is unparseable. -/
theorem c4_planning_calls_bounded (cfg : LoopCfg) :
    ((process_message cfg).1).planningCalls ≤ cfg.maxLoops := by
  have h := runAux_planningCalls_le cfg cfg.maxLoops {}
  simpa [process_message] using h

/-- Claim C5: whenever a planning response contains the substring
`PLAN_COMPLETE=True`, the loop transitions to the response-streaming
phase: the run ends streamed, with exactly the one planning call that
returned the sentinel and no tool execution — regardless of how many
iterations were already consumed (the state is arbitrary). -/
theorem c5_sentinel_streams (cfg : LoopCfg) (st : LoopState) (fuel : Nat)
    (h : containsSentinel (cfg.planOracle st.planningCalls) = true) :
    (runAux cfg (fuel + 1) st).2 = .streamedOut ∧
    ((runAux cfg (fuel + 1) st).1).planningCalls = st.planningCalls + 1 ∧
    ((runAux cfg (fuel + 1) st).1).toolCalls = st.toolCalls := by
  have hcond : (decide (cfg.maxLoops - 1 ≤ st.loopCount)
      || containsSentinel (cfg.planOracle st.planningCalls)) = true := by
    rw [h]
    exact Bool.or_true _
  have hstep : stepIter cfg st =
      .streamed (streamPhase cfg { st with planningCalls := st.planningCalls + 1 }) := by
    simp only [stepIter]
    rw [hcond, if_pos rfl]
  refine ⟨by simp [runAux, hstep], ?_, ?_⟩ <;>
    simp [runAux, hstep, streamPhase_planningCalls, streamPhase_toolCalls]

/-- Claim C5 witness: a concrete sentinel-carrying run. -/
theorem c5_sentinel_streams_witness :
    containsSentinel (cfgC5w.planOracle (({} : LoopState)).planningCalls) = true ∧
    ((runAux cfgC5w (4 + 1) {}).2 = .streamedOut ∧
     ((runAux cfgC5w (4 + 1) {}).1).planningCalls = ({} : LoopState).planningCalls + 1 ∧
     ((runAux cfgC5w (4 + 1) {}).1).toolCalls = ({} : LoopState).toolCalls) :=
  ⟨rfl, c5_sentinel_streams cfgC5w {} 4 rfl⟩

/-- Claim C6: when a tool invoked from the planning loop (via a
`GET_TRNA` or a reachable `CRAP` directive) returns a failure result, the
iteration emits exactly one new `error` event, increments the tool
counter and the loop counter, continues (the session is not terminated),
and the run issues at least one further planning call. -/
theorem c6_tool_failure_nonfatal :
    (∀ (cfg : LoopCfg) (st : LoopState) (p : SearchParams) (fuel : Nat),
      containsSentinel (cfg.planOracle st.planningCalls) = false →
      st.loopCount < cfg.maxLoops - 1 →
      pyStartsWith (cfg.planOracle st.planningCalls) "GET_TRNA" = true →
      parseGetTrna (cfg.planOracle st.planningCalls) = .ok p →
      (cfg.rnaTool p).status ≠ "success" →
      ∃ s, stepIter cfg st = .next s ∧
        countErr s.events = countErr st.events + 1 ∧
        s.toolCalls = st.toolCalls + 1 ∧
        s.loopCount = st.loopCount + 1 ∧
        s.planningCalls = st.planningCalls + 1 ∧
        st.planningCalls + 2 ≤ ((runAux cfg (fuel + 1) s).1).planningCalls) ∧
    (∀ (cfg : LoopCfg) (st : LoopState) (n : Nat) (fuel : Nat),
      containsSentinel (cfg.planOracle st.planningCalls) = false →
      st.loopCount < cfg.maxLoops - 1 →
      pyStartsWith (cfg.planOracle st.planningCalls) "GET_TRNA" = false →
      pyStartsWith (cfg.planOracle st.planningCalls) "CRAP" = true →
      st.resultVar = some (some n) →
      (cfg.crapTool (parseCrap (cfg.planOracle st.planningCalls))).status ≠ "success" →
      ∃ s, stepIter cfg st = .next s ∧
        countErr s.events = countErr st.events + 1 ∧
        s.toolCalls = st.toolCalls + 1 ∧
        s.loopCount = st.loopCount + 1 ∧
        s.planningCalls = st.planningCalls + 1 ∧
        st.planningCalls + 2 ≤ ((runAux cfg (fuel + 1) s).1).planningCalls) := by
  constructor
  · intro cfg st p fuel hsent hloop hstart hparse hfail
    have hnot : ¬(cfg.maxLoops - 1 ≤ st.loopCount) := by omega
    have hcond : (decide (cfg.maxLoops - 1 ≤ st.loopCount)
        || containsSentinel (cfg.planOracle st.planningCalls)) = false := by
      rw [hsent, decide_eq_false hnot]
      rfl
    have hbeq : ((cfg.rnaTool p).status == "success") = false := by
      simpa using hfail
    have hstep : stepIter cfg st = .next (finishIter
        (emit { (emit { st with planningCalls := st.planningCalls + 1 }
                  (toolStartEv "Searching for tRNA sequences...")) with
                toolCalls := st.toolCalls + 1
                resultVar := some (encodeResult (cfg.rnaTool p)) }
          (toolErrEv (errMsg (cfg.rnaTool p))))
        (cfg.planOracle st.planningCalls)) := by
      simp only [stepIter]
      rw [hcond, if_neg Bool.false_ne_true, hstart, if_pos rfl]
      simp only [execGetTrna, hparse]
      rw [hbeq, if_neg Bool.false_ne_true]
      rfl
    refine ⟨stateOf (stepIter cfg st), ?_, ?_, ?_, ?_,
      stepIter_planningCalls cfg st, ?_⟩
    · rw [hstep]
      rfl
    · rw [hstep]
      simp only [stateOf]
      simp [finishIter, emit, countErr_append, countErr_cons_toolStart,
        countErr_cons_toolProgress, countErr_cons_toolErr, countErr_toolStart,
        countErr_toolProgress, countErr_toolErr, countErr_nil]
    · rw [hstep]
      simp [stateOf, finishIter, emit]
    · rw [hstep]
      simp [stateOf, finishIter, emit]
    · have h1 := stepIter_planningCalls cfg st
      have h2 := runAux_makes_call cfg fuel (stateOf (stepIter cfg st))
      omega
  · intro cfg st n fuel hsent hloop hstart1 hstart2 hres hfail
    have hnot : ¬(cfg.maxLoops - 1 ≤ st.loopCount) := by omega
    have hcond : (decide (cfg.maxLoops - 1 ≤ st.loopCount)
        || containsSentinel (cfg.planOracle st.planningCalls)) = false := by
      rw [hsent, decide_eq_false hnot]
      rfl
    have hbeq : ((cfg.crapTool (parseCrap (cfg.planOracle st.planningCalls))).status
        == "success") = false := by
      simpa using hfail
    have hstep : stepIter cfg st = .next (finishIter
        (emit { (emit (emit { st with planningCalls := st.planningCalls + 1 }
                  (toolProgressEv ("Found " ++ toString n ++ " sequences")))
                  (toolStartEv "Surfing the genome browser...")) with
                toolCalls := st.toolCalls + 1
                resultVar := some (encodeResult
                  (cfg.crapTool (parseCrap (cfg.planOracle st.planningCalls)))) }
          (toolErrEv (errMsg
            (cfg.crapTool (parseCrap (cfg.planOracle st.planningCalls))))))
        (cfg.planOracle st.planningCalls)) := by
      simp only [stepIter]
      rw [hcond, if_neg Bool.false_ne_true, hstart1, if_neg Bool.false_ne_true,
        hstart2, if_pos rfl]
      simp only [execCrap, hres]
      rw [hbeq, if_neg Bool.false_ne_true]
      rfl
    refine ⟨stateOf (stepIter cfg st), ?_, ?_, ?_, ?_,
      stepIter_planningCalls cfg st, ?_⟩
    · rw [hstep]
      rfl
    · rw [hstep]
      simp only [stateOf]
      simp [finishIter, emit, countErr_append, countErr_cons_toolStart,
        countErr_cons_toolProgress, countErr_cons_toolErr, countErr_toolStart,
        countErr_toolProgress, countErr_toolErr, countErr_nil]
    · rw [hstep]
      simp [stateOf, finishIter, emit]
    · rw [hstep]
      simp [stateOf, finishIter, emit]
    · have h1 := stepIter_planningCalls cfg st
      have h2 := runAux_makes_call cfg fuel (stateOf (stepIter cfg st))
      omega

/-- Claim C6 witness: concrete failing `GET_TRNA` and `CRAP` runs. -/
theorem c6_tool_failure_nonfatal_witness :
    (∃ s, stepIter cfgC6a {} = StepRes.next s ∧
      countErr s.events = countErr ({} : LoopState).events + 1 ∧
      s.toolCalls = ({} : LoopState).toolCalls + 1 ∧
      s.loopCount = ({} : LoopState).loopCount + 1 ∧
      s.planningCalls = ({} : LoopState).planningCalls + 1 ∧
      ({} : LoopState).planningCalls + 2 ≤ ((runAux cfgC6a (3 + 1) s).1).planningCalls) ∧
    (∃ s, stepIter cfgC6b stC6 = StepRes.next s ∧
      countErr s.events = countErr stC6.events + 1 ∧
      s.toolCalls = stC6.toolCalls + 1 ∧
      s.loopCount = stC6.loopCount + 1 ∧
      s.planningCalls = stC6.planningCalls + 1 ∧
      stC6.planningCalls + 2 ≤ ((runAux cfgC6b (3 + 1) s).1).planningCalls) :=
  ⟨c6_tool_failure_nonfatal.1 cfgC6a {}
      { anticodon := some "AGC", species := some "yeast" } 3
      rfl (by decide) rfl rfl (by decide),
   c6_tool_failure_nonfatal.2 cfgC6b stC6 2 3
      rfl (by decide) rfl rfl rfl (by decide)⟩

/-! ## Claims about the cache wrapper -/

theorem lookupCache_append_self (entries : List ((String × MCPReq) × MCPResponse))
    (key : String × MCPReq) (v : MCPResponse)
    (h : lookupCache entries key = none) :
    lookupCache (entries ++ [(key, v)]) key = some v := by
  induction entries with
  | nil => simp [lookupCache]
  | cons kv rest ih =>
    cases hk : (kv.1 == key) with
    | true =>
      exfalso
      simp [lookupCache, List.find?, hk] at h
    | false =>
      simp only [lookupCache, List.cons_append, List.find?, hk] at h ⊢
      exact ih h

/-- Claim C7: through the cache wrapper, an identical request repeated
after a success returns the cached response and invokes the underlying
tool exactly once across the two calls; a failure response is never
stored, so after a failure the underlying tool is re-invoked (two
underlying calls across the two invocations). -/
theorem c7_cache_idempotent (t : WrappedTool) (st : CacheSt) (r : MCPReq)
    (hmiss : lookupCache st.entries (fingerprint t r) = none) :
    ((t.tool r).status = "success" →
      ((cachedProcessRequest t st r).2).calls = st.calls + 1 ∧
      (cachedProcessRequest t ((cachedProcessRequest t st r).2) r).1 =
        (cachedProcessRequest t st r).1 ∧
      ((cachedProcessRequest t ((cachedProcessRequest t st r).2) r).2).calls =
        st.calls + 1) ∧
    ((t.tool r).status ≠ "success" →
      ((cachedProcessRequest t st r).2).entries = st.entries ∧
      ((cachedProcessRequest t ((cachedProcessRequest t st r).2) r).2).calls =
        st.calls + 2) := by
  constructor
  · intro hs
    have hbeq : ((t.tool r).status == "success") = true := by
      simpa using hs
    have h1 : cachedProcessRequest t st r =
        (t.tool r, { st with
          calls := st.calls + 1
          entries := st.entries ++ [(fingerprint t r, t.tool r)] }) := by
      simp only [cachedProcessRequest, hmiss]
      rw [hbeq, if_pos rfl]
    have hhit : lookupCache (st.entries ++ [(fingerprint t r, t.tool r)])
        (fingerprint t r) = some (t.tool r) :=
      lookupCache_append_self st.entries (fingerprint t r) (t.tool r) hmiss
    rw [h1]
    refine ⟨rfl, ?_, ?_⟩ <;>
      simp only [cachedProcessRequest, hhit]
  · intro hs
    have hbeq : ((t.tool r).status == "success") = false := by
      simpa using hs
    have h1 : cachedProcessRequest t st r =
        (t.tool r, { st with calls := st.calls + 1 }) := by
      simp only [cachedProcessRequest, hmiss]
      rw [hbeq, if_neg Bool.false_ne_true]
    have hmiss2 : lookupCache ({ st with calls := st.calls + 1 } : CacheSt).entries
        (fingerprint t r) = none := hmiss
    rw [h1]
    refine ⟨rfl, ?_⟩
    simp only [cachedProcessRequest, hmiss2]
    rw [hbeq, if_neg Bool.false_ne_true]

/-- Claim C7 witness: a concrete succeeding tool is invoked once across
two identical requests, and a concrete failing tool is invoked twice with
nothing cached. -/
theorem c7_cache_idempotent_witness :
    lookupCache ({} : CacheSt).entries (fingerprint toolOkW reqW) = none ∧
    (toolOkW.tool reqW).status = "success" ∧
    (((cachedProcessRequest toolOkW {} reqW).2).calls = ({} : CacheSt).calls + 1 ∧
     (cachedProcessRequest toolOkW ((cachedProcessRequest toolOkW {} reqW).2) reqW).1 =
       (cachedProcessRequest toolOkW {} reqW).1 ∧
     ((cachedProcessRequest toolOkW ((cachedProcessRequest toolOkW {} reqW).2) reqW).2).calls =
       ({} : CacheSt).calls + 1) ∧
    (toolFailW.tool reqW).status ≠ "success" ∧
    (((cachedProcessRequest toolFailW {} reqW).2).entries = ({} : CacheSt).entries ∧
     ((cachedProcessRequest toolFailW ((cachedProcessRequest toolFailW {} reqW).2) reqW).2).calls =
       ({} : CacheSt).calls + 2) :=
  ⟨rfl, rfl, (c7_cache_idempotent toolOkW {} reqW rfl).1 rfl, by decide,
   (c7_cache_idempotent toolFailW {} reqW rfl).2 (by decide)⟩

/-! ## Claims about outbound events and persistence -/

/-- Claim C8 counterexample: in a concrete run with one successful and one
failing `GET_TRNA` call, the emitted `sequence_data` events and the
tool-failure `error` event carry no timestamp field, contradicting the
claim that every outbound event carries one. -/
theorem c8_counterexample :
    ((process_message cfgC8).1.events.any
      fun e => e.type == EvType.sequenceData && !e.hasTimestamp) = true ∧
    ((process_message cfgC8).1.events.any
      fun e => e.type == EvType.error && !e.hasTimestamp) = true :=
  ⟨rfl, rfl⟩

/-- Claim C8 (amended): every outbound event other than `sequence_data`
events and `error` events carries a timestamp; `sequence_data` events
never carry one (tool-failure `error` events carry none while the fatal
error event does). -/
theorem c8_amended (cfg : LoopCfg) (e : Event)
    (he : e ∈ ((process_message cfg).1).events) :
    timestampPolicy e = true := by
  have h0 : EventsOk (({} : LoopState).events) := by
    intro x hx
    exact absurd hx (List.not_mem_nil x)
  exact runAux_policy cfg cfg.maxLoops {} h0 e he

/-- Claim C8 witness: the policy evaluated on a concrete event of a
concrete run. -/
theorem c8_amended_witness :
    (toolStartEv "Searching for tRNA sequences..." ∈
      ((process_message cfgC8).1).events) ∧
    timestampPolicy (toolStartEv "Searching for tRNA sequences...") = true :=
  ⟨by decide, c8_amended cfgC8 _ (by decide)⟩

/-- Claim C9: at the end of every run that reaches the response phase,
exactly one assistant message is persisted, and its content is the
concatenation of the streamed fragments — equivalently, of the contents of
the `token` events emitted to the client. -/
theorem c9_persisted_equals_stream (cfg : LoopCfg)
    (h : (process_message cfg).2 = .streamedOut) :
    ((process_message cfg).1).persisted = [String.join cfg.fragments] ∧
    ((process_message cfg).1).persisted =
      [String.join (tokenContents ((process_message cfg).1).events)] := by
  obtain ⟨h1, h2⟩ := runAux_streamed_tok cfg cfg.maxLoops {} h
  constructor
  · simpa using h2
  · have h1' : tokenContents ((process_message cfg).1).events = cfg.fragments := by
      simpa [tokenContents] using h1
    rw [h1']
    simpa using h2

/-- Claim C9 witness: a concrete completed run persists exactly the
concatenation of its streamed fragments. -/
theorem c9_persisted_equals_stream_witness :
    (process_message cfgC9w).2 = LoopOutcome.streamedOut ∧
    (((process_message cfgC9w).1).persisted = [String.join cfgC9w.fragments] ∧
     ((process_message cfgC9w).1).persisted =
       [String.join (tokenContents ((process_message cfgC9w).1).events)]) :=
  ⟨rfl, c9_persisted_equals_stream cfgC9w rfl⟩
